import Mathlib

/-!
Shallow embedding of the control core of the `personal-agent` repository:
the tool dispatcher (`agent/tools/__init__.py`), the top-level orchestrator
loop (`agent/claude_agent.py`), the browser-control sub-agent loop and its
sync/async bridge (`agent/tools/apply_to_job.py`), and the resume-update tool
(`agent/tools/update_resume.py`).

External effects (the reasoning-model API, Playwright browser primitives,
the filesystem, `base64.b64decode`, `pdftotext`) are modelled as explicit
oracle inputs: each oracle field records the outcome the external call would
produce (`Except.error` = the call raised an exception with that message).
Loops that Python bounds with `for _ in range(N)` are modelled by structural
recursion on the same bound `N`, so the embedding is total and executable.
-/

set_option maxRecDepth 4000

deriving instance DecidableEq for Except

namespace Tools

/-!
`agent/tools/__init__.py`.  The registry `TOOLS` maps a tool name to a bound
callable; the callables themselves (web_search, compile_latex, run_command,
apply_to_job, update_resume) are external collaborators, so the registry is a
parameter: an association list from names to functions returning either a
result string (`Except.ok`) or a raised exception's message (`Except.error`).
-/

/-- A tool registry: `name -> function` (the `TOOLS` dict, restricted to the
`"function"` field, which is all `run_tool` reads). -/
def Registry (α : Type) : Type := List (String × (α → Except String String))

/--
`run_tool(name, input)`:
```
if name not in TOOLS:
    return f"Error: Unknown tool '{name}'"
try:
    return TOOLS[name]["function"](**input)
except Exception as e:
    return f"Error running {name}: {e}"
```
Calling the bound function with `**input` happens inside the `try`, so any
exception it raises is returned as a string; the Lean model is total by
construction, mirroring "never raises past its boundary".
-/
def run_tool {α : Type} (tools : Registry α) (name : String) (input : α) : String :=
  match List.lookup name tools with
  | none => "Error: Unknown tool '" ++ name ++ "'"
  | some f =>
    match f input with
    | Except.ok s => s
    | Except.error e => "Error running " ++ name ++ ": " ++ e

end Tools

namespace UpdateResume

/-!
`agent/tools/update_resume.py`.  `base64.b64decode` is external: the model
takes its outcome (`Except.error e` = the decode raised, message `e`).
The filesystem is the part the function can touch: the resume file content
and whether `/app/data` exists (`os.makedirs(..., exist_ok=True)`).
-/

def RESUME_PATH : String := "/app/data/resume.pdf"

/-- Bytes of the literal 5-byte header `b"%PDF-"` the source compares against. -/
def pdfMagic : List Nat := [37, 80, 68, 70, 45]

/-- Bytes of the 4-byte PDF signature `%PDF` (what the spec sentence names). -/
def pdfSig4 : List Nat := [37, 80, 68, 70]

/-- The filesystem state `update_resume` can observe or change. -/
structure FS where
  resume : Option (List Nat)
  dataDirExists : Bool
  deriving DecidableEq, Repr

/-- `size_kb:.1f` display: tenths of a KB with half-up rounding.  (The source
formats a binary float with `:.1f`; the exact rounding of halfway cases is
abstracted — no claim depends on the digits.) -/
def kbTenths (len : Nat) : Nat := (len * 10 + 512) / 1024

/-- The `page_info` suffix: result of running `pdftotext` on the freshly
written file (`none` = FileNotFoundError/TimeoutExpired, `some (rc, out)` =
return code and stdout). -/
def pageInfo (pt : Option (Int × String)) : String :=
  match pt with
  | some (rc, out) =>
    if rc == 0 && !(out.trim == "") then
      " Extracted " ++ toString ((out.trim.splitOn "\n").length) ++ " lines of text."
    else ""
  | none => ""

/-- The success message returned after a write
(`f"Resume updated successfully ({size_kb:.1f} KB).{page_info} It will be used for future job applications."`). -/
def successMsg (len : Nat) (pt : Option (Int × String)) : String :=
  "Resume updated successfully (" ++ toString (kbTenths len / 10) ++ "." ++
    toString (kbTenths len % 10) ++ " KB)." ++ pageInfo pt ++
    " It will be used for future job applications."

/--
`update_resume(attachment_base64)`: `decoded` is the outcome of
`base64.b64decode(attachment_base64)`; `pt` the outcome of the post-write
`pdftotext` probe; `fs` the filesystem before the call.  Returns the result
string and the filesystem after the call.
```
try: pdf_bytes = base64.b64decode(attachment_base64)
except Exception as e: return f"Error: Invalid base64 data — {e}"
if not pdf_bytes[:5] == b"%PDF-":
    return "Error: The attachment does not appear to be a valid PDF file."
os.makedirs(os.path.dirname(RESUME_PATH), exist_ok=True)
with open(RESUME_PATH, "wb") as f: f.write(pdf_bytes)
...
```
-/
def update_resume (decoded : Except String (List Nat)) (pt : Option (Int × String))
    (fs : FS) : String × FS :=
  match decoded with
  | Except.error e => ("Error: Invalid base64 data — " ++ e, fs)
  | Except.ok pdf_bytes =>
    if !(pdf_bytes.take 5 == pdfMagic) then
      ("Error: The attachment does not appear to be a valid PDF file.", fs)
    else
      (successMsg pdf_bytes.length pt, ⟨some pdf_bytes, true⟩)

/-- Prior filesystem used by concrete instances below: a previously stored
resume (three arbitrary bytes) in an existing `/app/data`. -/
def fs0 : FS := ⟨some [1, 2, 3], true⟩

end UpdateResume

namespace ClaudeAgent

/-!
`agent/claude_agent.py`: the top-level orchestrator loop `run_agent`.
The reasoning model is an oracle `List (Turn α) -> Response α` (a function of
the conversation sent to it); `α` is the type of tool inputs carried inside
`tool_use` blocks and handed to `run_tool`.  The `json.loads`-based extraction
of a PDF attachment from a `compile_latex` result is the external step
`latexAttachment : String -> Option FileAttachment` (`none` = no attachment
captured, covering the `except (json.JSONDecodeError, KeyError): pass` path).
-/

def MAX_TOOL_ROUNDS : Nat := 10

/-- A content block of a model response (`response.content`); `other` covers
block types that are neither `"text"` nor `"tool_use"` and fall through the
`if/elif` collecting pass. -/
inductive RBlock (α : Type) where
  | text (s : String)
  | toolUse (id name : String) (input : α)
  | other
  deriving DecidableEq, Repr

/-- A model response: content blocks plus `stop_reason`. -/
structure Response (α : Type) where
  content : List (RBlock α)
  stop_reason : String
  deriving DecidableEq, Repr

/-- One `{"type": "tool_result", "tool_use_id": ..., "content": result}` dict. -/
structure ToolResult where
  tool_use_id : String
  content : String
  deriving DecidableEq, Repr

/-- One entry of `messages`: the initial user message (a plain string), an
assistant turn carrying `response.content`, or a user turn carrying the
round's `tool_results` list. -/
inductive Turn (α : Type) where
  | user (message : String)
  | assistant (content : List (RBlock α))
  | toolResults (rs : List ToolResult)
  deriving DecidableEq, Repr

/-- The `file_attachment` dict captured from a `compile_latex` result. -/
structure FileAttachment where
  b64 : String
  filename : String
  deriving DecidableEq, Repr

/-- `text_parts`: the `block.text` of each `"text"` block, in order. -/
def textsOf {α : Type} (content : List (RBlock α)) : List String :=
  content.filterMap fun b =>
    match b with
    | RBlock.text s => some s
    | _ => none

/-- `tool_uses`: the `(id, name, input)` of each `"tool_use"` block, in order. -/
def toolUsesOf {α : Type} (content : List (RBlock α)) :
    List (String × String × α) :=
  content.filterMap fun b =>
    match b with
    | RBlock.toolUse id name input => some (id, name, input)
    | _ => none

/-- The per-round tool-execution pass: for each requested invocation, in
order, run `run_tool` and wrap the string result as a `tool_result` dict;
track the `file_attachment` side channel (updated only when the tool is
`compile_latex` and the extraction step yields an attachment). -/
def execTools {α : Type} (tools : Tools.Registry α)
    (latexAttachment : String → Option FileAttachment) :
    List (String × String × α) → Option FileAttachment →
      List ToolResult × Option FileAttachment
  | [], fa => ([], fa)
  | (id, name, input) :: rest, fa =>
    let result := Tools.run_tool tools name input
    let fa1 :=
      if name == "compile_latex" then
        match latexAttachment result with
        | some f => some f
        | none => fa
      else fa
    let tail := execTools tools latexAttachment rest fa1
    (⟨id, result⟩ :: tail.1, tail.2)

/-- What `run_agent` produces, plus ghost observations used only by the
specification: the final `messages` list, the number of reasoning-model
invocations made, and the final value of the `text_parts` local. -/
structure AgentOutcome (α : Type) where
  text : String
  file : Option FileAttachment
  messages : List (Turn α)
  calls : Nat
  lastTexts : List String
  deriving DecidableEq, Repr

/--
The body of `for _ in range(MAX_TOOL_ROUNDS)` in `run_agent`, by recursion on
the remaining rounds.  At fuel `0` (budget exhausted) the post-loop code runs:
`text = "\n".join(text_parts) if text_parts else "I used too many tool calls. ..."`.
Each round: call the model; partition content; if `stop_reason == "end_turn"`
or there are no tool uses, return the joined text (or the fixed apology when
there are no text blocks); otherwise append the assistant turn, execute all
tools, append the tool results as one user turn, continue.
-/
def run_agent_loop {α : Type} (model : List (Turn α) → Response α)
    (tools : Tools.Registry α)
    (latexAttachment : String → Option FileAttachment) :
    Nat → List (Turn α) → Option FileAttachment → List String → Nat →
      AgentOutcome α
  | 0, msgs, fa, tp, calls =>
    ⟨if !tp.isEmpty then String.intercalate "\n" tp
      else "I used too many tool calls. Please try a simpler question.",
      fa, msgs, calls, tp⟩
  | fuel + 1, msgs, fa, _, calls =>
    let resp := model msgs
    let tp := textsOf resp.content
    let tus := toolUsesOf resp.content
    if resp.stop_reason == "end_turn" || tus.isEmpty then
      ⟨if !tp.isEmpty then String.intercalate "\n" tp
        else "I couldn't generate a response.",
        fa, msgs, calls + 1, tp⟩
    else
      let er := execTools tools latexAttachment tus fa
      run_agent_loop model tools latexAttachment fuel
        ((msgs ++ [Turn.assistant resp.content]) ++ [Turn.toolResults er.1])
        er.2 tp (calls + 1)

/-- `run_agent(user_message, conversation_history)`: append the user message
as a new turn, then run the bounded loop with no attachment captured yet. -/
def run_agent {α : Type} (model : List (Turn α) → Response α)
    (tools : Tools.Registry α)
    (latexAttachment : String → Option FileAttachment)
    (user_message : String) (conversation_history : List (Turn α)) :
    AgentOutcome α :=
  run_agent_loop model tools latexAttachment MAX_TOOL_ROUNDS
    (conversation_history ++ [Turn.user user_message]) none [] 0

end ClaudeAgent

namespace ApplyToJob

/-!
`agent/tools/apply_to_job.py`: the Computer Use sub-agent loop
`_run_computer_use_loop` and the sync/async bridge `apply_to_job`.

External calls are oracle fields of `SubOracle`.  Granularity: a round's
per-action Playwright calls (`page.mouse.click`, `page.keyboard.type`,
`page.screenshot`, ...) all sit inside one `try` whose `except` turns any
exception into the same text observation, so the body of one action is
modelled as one fallible step (`body iter j`), preceded by the coordinate
list indexing the source performs before or between those calls (an
out-of-range index raises inside the same `try`).  Screenshot payloads are
supplied by `shot`, indexed by a running count of screenshots taken.  The
`await browser.close()` calls are counted in `RunStats.closes`; the
`async with async_playwright()` teardown that still runs when an exception
propagates is not a `browser.close()` call and is not counted.
-/

def MAX_ITERATIONS : Nat := 30
def DISPLAY_WIDTH : Int := 1280
def DISPLAY_HEIGHT : Int := 800

/-- The flat parameter bag of a `computer` tool invocation
(`tool_use.input`); absent keys are `none`. -/
structure ActionInput where
  action : Option String
  coordinate : Option (List Int)
  start_coordinate : Option (List Int)
  end_coordinate : Option (List Int)
  text : Option String
  key : Option String
  direction : Option String
  amount : Option Int
  duration : Option Int
  deriving DecidableEq, Repr

/-- An `ActionInput` with every key absent. -/
def emptyInput : ActionInput := ⟨none, none, none, none, none, none, none, none, none⟩

/-- A `tool_use` block of the inner loop (`name` is always `"computer"`). -/
structure ToolUse where
  id : String
  input : ActionInput
  deriving DecidableEq, Repr

/-- A content block of an inner-loop model response. -/
inductive CBlock where
  | text (s : String)
  | toolUse (tu : ToolUse)
  | other
  deriving DecidableEq, Repr

/-- An inner-loop model response (only `response.content` is inspected). -/
structure CResponse where
  content : List CBlock
  deriving DecidableEq, Repr

/-- A block inside a `tool_result` (or the initial user message): a text
observation or a base64 screenshot image. -/
inductive IBlock where
  | text (s : String)
  | image (data : String)
  deriving DecidableEq, Repr

/-- One `{"type": "tool_result", "tool_use_id": ..., "content": [...]}`. -/
structure IResult where
  tool_use_id : String
  content : List IBlock
  deriving DecidableEq, Repr

/-- One entry of the inner `messages` list.  (`user` and `results` both have
role `"user"` on the wire; `results` is the turn carrying `tool_results`.) -/
inductive ITurn where
  | user (content : List IBlock)
  | assistant (content : List CBlock)
  | results (rs : List IResult)
  deriving DecidableEq, Repr

/-- `text_parts` of an inner response. -/
def iTextsOf (content : List CBlock) : List String :=
  content.filterMap fun b =>
    match b with
    | CBlock.text s => some s
    | _ => none

/-- `tool_uses` of an inner response. -/
def iToolUsesOf (content : List CBlock) : List ToolUse :=
  content.filterMap fun b =>
    match b with
    | CBlock.toolUse tu => some tu
    | _ => none

/-- Outcomes of every external call `_run_computer_use_loop` makes, in source
order.  `model i` is the outcome of the `client.beta.messages.create` call of
iteration `i` (`Except.error` = the call raised); `body i j` is `some e` when
one of the Playwright calls of action `j` of iteration `i` raises `e`;
`shot n` is the base64 payload of the `n`-th screenshot taken. -/
structure SubOracle where
  profile : Option String
  pdftotext : Option (Int × String)
  resumeReadable : Bool
  nav : Option String
  initShot : Except String String
  model : Nat → Except String CResponse
  body : Nat → Nat → Option String
  shot : Nat → String

/-- `_load_profile()`: read `profile.md` (`none` = FileNotFoundError). -/
def _load_profile (o : SubOracle) : String :=
  match o.profile with
  | some s => s.trim
  | none => "[No profile.md found. Use resume content only.]"

/-- `_extract_resume_text(resume_path)`: `pdftotext` first (`none` =
FileNotFoundError/TimeoutExpired), then a readability probe of the file. -/
def _extract_resume_text (o : SubOracle) (resume_path : String) : String :=
  let fallback :=
    if o.resumeReadable then
      "[Resume PDF exists at " ++ resume_path ++
        " but text extraction is unavailable. Use the file for uploads.]"
    else
      "[No resume file found. Ask the user to provide their details or upload a resume.]"
  match o.pdftotext with
  | some (rc, out) =>
    if rc == 0 && !(out.trim == "") then out.trim else fallback
  | none => fallback

/-- Python `f"{action}"` where `action = tool_use.input.get("action")`. -/
def pyShow (a : Option String) : String :=
  match a with
  | some s => s
  | none => "None"

/-- Python list indexing `l[i]` inside the per-action `try`: raises
`IndexError: list index out of range` when out of bounds. -/
def listGet (l : List Int) (i : Nat) : Except String Int :=
  match l.get? i with
  | some v => Except.ok v
  | none => Except.error "list index out of range"

/-- Consult the oracle for the Playwright calls of action `j` of iteration
`i`: `some e` means one of them raises `e`. -/
def checkBody (o : SubOracle) (i j : Nat) : Except String Unit :=
  match o.body i j with
  | some e => Except.error e
  | none => Except.ok ()

/-- Python `action == "name"` where `action` may be `None`: the guard of one
arm of the `if/elif` chain. -/
def isAct (a : Option String) (s : String) : Bool := a == some s

/-- The Computer Use -> Playwright key-name translation table. -/
def keyMap (k : String) : String :=
  Option.getD (List.lookup k
    [("Return", "Enter"), ("BackSpace", "Backspace"), ("space", " "),
     ("Tab", "Tab"), ("Escape", "Escape")]) k

/--
The `if action == ... / elif ... / else` chain inside the per-action `try`
(returning the `result_content` together with the updated `(mouse_x, mouse_y)`
and screenshot count; `Except.error e` = an exception raised inside the
`try`).  Differences of pure bookkeeping against the source:
- all four `scroll` directions produce the same observable outcome: an image
  `result_content`, unchanged mouse bookkeeping, one screenshot — the
  `"left"`/`"right"` arms append the very same `tool_result` themselves and
  `continue`, the others fall through to the shared append;
- the point inside one action's body at which an exception is raised is
  abstracted: a failed body leaves the mouse bookkeeping and the screenshot
  count unchanged.
-/
def actionBody (o : SubOracle) (iter j : Nat) (mouse : Int × Int) (shots : Nat)
    (inp : ActionInput) : Except String (List IBlock × (Int × Int) × Nat) :=
  let a := inp.action
  if isAct a "screenshot" then do
    checkBody o iter j
    pure ([IBlock.image (o.shot shots)], mouse, shots + 1)
  else if isAct a "click" || isAct a "left_click" || isAct a "right_click"
      || isAct a "middle_click" then do
    let c := inp.coordinate.getD [0, 0]
    let x ← listGet c 0
    let y ← listGet c 1
    checkBody o iter j
    pure ([IBlock.image (o.shot shots)], (x, y), shots + 1)
  else if isAct a "double_click" || isAct a "left_click_drag" then
    if isAct a "left_click_drag" then do
      let s := inp.start_coordinate.getD [0, 0]
      let e := inp.coordinate.getD [0, 0]
      let _ ← listGet s 0
      let _ ← listGet s 1
      let x ← listGet e 0
      let y ← listGet e 1
      checkBody o iter j
      pure ([IBlock.image (o.shot shots)], (x, y), shots + 1)
    else do
      let c := inp.coordinate.getD [0, 0]
      let x ← listGet c 0
      let y ← listGet c 1
      checkBody o iter j
      pure ([IBlock.image (o.shot shots)], (x, y), shots + 1)
  else if isAct a "type" then do
    let _text := inp.text.getD ""
    checkBody o iter j
    pure ([IBlock.image (o.shot shots)], mouse, shots + 1)
  else if isAct a "key" then do
    let _pw_key := keyMap (inp.key.getD "")
    checkBody o iter j
    pure ([IBlock.image (o.shot shots)], mouse, shots + 1)
  else if isAct a "scroll" then do
    let c := inp.coordinate.getD [DISPLAY_WIDTH / 2, DISPLAY_HEIGHT / 2]
    let _x ← listGet c 0
    let _y ← listGet c 1
    let _direction := inp.direction.getD "down"
    let _amount := inp.amount.getD 3
    checkBody o iter j
    pure ([IBlock.image (o.shot shots)], mouse, shots + 1)
  else if isAct a "cursor_position" then
    Except.ok
      ([IBlock.text ("Cursor position: (" ++ toString mouse.1 ++ ", " ++
        toString mouse.2 ++ ")")], mouse, shots)
  else if isAct a "drag" then do
    let s := inp.start_coordinate.getD [0, 0]
    let e := inp.end_coordinate.getD [0, 0]
    let _ ← listGet s 0
    let _ ← listGet s 1
    let x ← listGet e 0
    let y ← listGet e 1
    checkBody o iter j
    pure ([IBlock.image (o.shot shots)], (x, y), shots + 1)
  else if isAct a "triple_click" then do
    let c := inp.coordinate.getD [0, 0]
    let x ← listGet c 0
    let y ← listGet c 1
    checkBody o iter j
    pure ([IBlock.image (o.shot shots)], (x, y), shots + 1)
  else if isAct a "wait" then do
    let _duration := inp.duration.getD 2
    checkBody o iter j
    pure ([IBlock.image (o.shot shots)], mouse, shots + 1)
  else
    Except.ok ([IBlock.text ("Unknown action: " ++ pyShow a)], mouse, shots)

/-- Whether the action name is one of the recognized variants (the
disjunction of the `if/elif` guards above). -/
def isKnownAction (a : Option String) : Bool :=
  isAct a "screenshot" || isAct a "click" || isAct a "left_click" ||
  isAct a "right_click" || isAct a "middle_click" ||
  isAct a "double_click" || isAct a "left_click_drag" ||
  isAct a "type" || isAct a "key" || isAct a "scroll" ||
  isAct a "cursor_position" || isAct a "drag" ||
  isAct a "triple_click" || isAct a "wait"

/-- One action: run the body; the `except Exception as e` arm converts a
raised `e` into the text observation `f"Error executing {action}: {e}"`. -/
def doAction (o : SubOracle) (iter j : Nat) (mouse : Int × Int) (shots : Nat)
    (inp : ActionInput) : List IBlock × (Int × Int) × Nat :=
  match actionBody o iter j mouse shots inp with
  | Except.ok r => r
  | Except.error e =>
    ([IBlock.text ("Error executing " ++ pyShow inp.action ++ ": " ++ e)],
      mouse, shots)

/-- The `for tool_use in tool_uses` pass of one iteration: `j` is the index
of the action within the round; each action contributes exactly one
`tool_result` carrying its `tool_use.id`. -/
def processActions (o : SubOracle) (iter : Nat) :
    List ToolUse → Nat → (Int × Int) → Nat →
      List IResult × (Int × Int) × Nat
  | [], _, mouse, shots => ([], mouse, shots)
  | tu :: rest, j, mouse, shots =>
    let r1 := doAction o iter j mouse shots tu.input
    let tail := processActions o iter rest (j + 1) r1.2.1 r1.2.2
    (⟨tu.id, r1.1⟩ :: tail.1, tail.2)

/-- Resource/observation bookkeeping of one `_run_computer_use_loop` run:
number of `await browser.close()` calls executed, number of
`client.beta.messages.create` calls made, number of screenshots taken, and
the final inner `messages` list. -/
structure RunStats where
  closes : Nat
  modelCalls : Nat
  shots : Nat
  messages : List ITurn
  deriving DecidableEq, Repr

/-- The outcome of `_run_computer_use_loop`: `Except.ok s` = the function
returns the string `s`; `Except.error e` = an exception `e` propagates out of
the function uncaught. -/
structure SubResult where
  result : Except String String
  stats : RunStats
  deriving DecidableEq, Repr

/-- The mutable locals of the iteration loop. -/
structure LoopSt where
  iter : Nat
  messages : List ITurn
  mouse : Int × Int
  shots : Nat
  calls : Nat
  summary : String
  deriving DecidableEq, Repr

/--
`for iteration in range(MAX_ITERATIONS)` of `_run_computer_use_loop`, by
recursion on the remaining iterations.  At fuel `0` the loop is exhausted:
`await browser.close()` runs and the current `summary` is returned.  Each
iteration: call the model (a raised exception propagates — there is no
`try/finally` around the loop, so no `browser.close()` happens on that path);
with no `tool_use` blocks, set the summary from the text parts (keeping the
previous summary when there are none), `break`, close the browser and return;
otherwise append the assistant turn, execute every action, append all
`tool_results` as one user turn, and continue.
-/
def cuLoop (o : SubOracle) : Nat → LoopSt → SubResult
  | 0, st => ⟨Except.ok st.summary, ⟨1, st.calls, st.shots, st.messages⟩⟩
  | fuel + 1, st =>
    match o.model st.iter with
    | Except.error e => ⟨Except.error e, ⟨0, st.calls + 1, st.shots, st.messages⟩⟩
    | Except.ok resp =>
      let tus := iToolUsesOf resp.content
      let tps := iTextsOf resp.content
      if tus.isEmpty then
        let summary :=
          if !tps.isEmpty then String.intercalate "\n" tps else st.summary
        ⟨Except.ok summary, ⟨1, st.calls + 1, st.shots, st.messages⟩⟩
      else
        let pr := processActions o st.iter tus 0 st.mouse st.shots
        cuLoop o fuel
          ⟨st.iter + 1,
            (st.messages ++ [ITurn.assistant resp.content]) ++ [ITurn.results pr.1],
            pr.2.1, pr.2.2, st.calls + 1, st.summary⟩

/--
`_run_computer_use_loop(job_url, resume_path)`: load the static context,
launch the browser, navigate (`except` -> `await browser.close()` and return
the failure summary, before any screenshot or model call), take the initial
screenshot (outside any `try`: a raised exception propagates with no
`browser.close()`), build the initial user message and run the loop starting
from `mouse = (0, 0)` and the default summary.
-/
def _run_computer_use_loop (o : SubOracle) (job_url resume_path : String) :
    SubResult :=
  let _profile_text := _load_profile o
  let _resume_text := _extract_resume_text o resume_path
  match o.nav with
  | some e => ⟨Except.ok ("Failed to load job URL: " ++ e), ⟨1, 0, 0, []⟩⟩
  | none =>
    match o.initShot with
    | Except.error e => ⟨Except.error e, ⟨0, 0, 0, []⟩⟩
    | Except.ok data =>
      let msgs0 :=
        [ITurn.user [IBlock.image data,
          IBlock.text ("Apply to this job: " ++ job_url)]]
      cuLoop o MAX_ITERATIONS
        ⟨0, msgs0, (0, 0), 1, 0, "Job application process did not complete."⟩

/-- A Python exception as `apply_to_job` distinguishes them: whether it is a
`RuntimeError`, and its message. -/
structure PyExn where
  isRuntimeError : Bool
  msg : String
  deriving DecidableEq, Repr

/-- The event loop object returned by `asyncio.get_event_loop()`. -/
structure LoopInfo where
  isRunning : Bool
  deriving DecidableEq, Repr

/-- Outcomes of the four external steps of `apply_to_job`:
`asyncio.get_event_loop()`; the worker-thread path
(`pool.submit(asyncio.run, ...).result(timeout=300)`, whose `Except.error`
covers the inner coroutine raising as well as the wall-clock
`TimeoutError`); the direct path (`loop.run_until_complete(...)`); and the
`asyncio.run(...)` retry inside the `except RuntimeError` handler. -/
structure BridgeOracle where
  getLoop : Except PyExn LoopInfo
  threadRun : Except PyExn String
  directRun : Except PyExn String
  fallbackRun : Except PyExn String
  deriving Repr

/--
`apply_to_job(job_url, resume_path)`:
```
try:
    loop = asyncio.get_event_loop()
    if loop.is_running():
        ... pool.submit(asyncio.run, ...).result(timeout=300) ...
    else:
        return loop.run_until_complete(...)
except RuntimeError:
    return asyncio.run(...)
except Exception as e:
    return f"Error during job application: {e}"
```
`Except.error` in the result = an exception propagating to the caller.  An
exception raised by a `try` step is dispatched to the first matching handler;
an exception raised inside the `except RuntimeError` handler is not caught by
the sibling `except Exception` clause and propagates.
-/
def apply_to_job (o : BridgeOracle) : Except PyExn String :=
  let attempt : Except PyExn String :=
    match o.getLoop with
    | Except.error e => Except.error e
    | Except.ok loop =>
      if loop.isRunning then o.threadRun else o.directRun
  match attempt with
  | Except.ok s => Except.ok s
  | Except.error e =>
    if e.isRuntimeError then o.fallbackRun
    else Except.ok ("Error during job application: " ++ e.msg)

end ApplyToJob

/-!  Concrete instances used by the counterexamples and witnesses below.  -/

/-- `sub` occurs as a contiguous substring of `s`. -/
def strContains (s sub : String) : Prop := ∃ pre post, s = pre ++ sub ++ post

/-- A registry with one tool whose callable always raises `boom`. -/
def regNat : Tools.Registry Nat := [("web_search", fun _ => Except.error "boom")]

/-- A registry (over trivial tool inputs) with one succeeding tool. -/
def regUnit : Tools.Registry Unit := [("web_search", fun _ => Except.ok "result")]

/-- The attachment-extraction step when no tool result carries a PDF. -/
def noLatex : String → Option ClaudeAgent.FileAttachment := fun _ => none

/-- A model that answers every conversation with two text blocks and no tool
use, stop reason `"end_turn"`. -/
def twoTextModel : List (ClaudeAgent.Turn Unit) → ClaudeAgent.Response Unit :=
  fun _ => ⟨[ClaudeAgent.RBlock.text "a", ClaudeAgent.RBlock.text "b"], "end_turn"⟩

/-- A model that answers every conversation with a single text block. -/
def oneTextModel : List (ClaudeAgent.Turn Unit) → ClaudeAgent.Response Unit :=
  fun _ => ⟨[ClaudeAgent.RBlock.text "hello"], "end_turn"⟩

/-- A model that requests a tool on every round (text `"t"` plus one
`web_search` invocation, stop reason `"tool_use"`). -/
def toolRoundModel : List (ClaudeAgent.Turn Unit) → ClaudeAgent.Response Unit :=
  fun _ =>
    ⟨[ClaudeAgent.RBlock.text "t",
      ClaudeAgent.RBlock.toolUse "toolu_1" "web_search" ()], "tool_use"⟩

/-- A sub-agent oracle for a benign run: navigation succeeds, the first model
response is a final text, nothing raises. -/
def okOracle : ApplyToJob.SubOracle :=
  ⟨none, none, true, none, Except.ok "s0",
    fun _ => Except.ok ⟨[ApplyToJob.CBlock.text "done"]⟩,
    fun _ _ => none, fun n => "s" ++ toString n⟩

/-- A sub-agent oracle on which the first reasoning-model call raises. -/
def apiFailOracle : ApplyToJob.SubOracle :=
  ⟨none, none, true, none, Except.ok "s0",
    fun _ => Except.error "anthropic.APIConnectionError: Connection error.",
    fun _ _ => none, fun n => "s" ++ toString n⟩

/-- A sub-agent oracle on which `page.goto` raises within its timeout. -/
def navFailOracle : ApplyToJob.SubOracle :=
  ⟨none, none, true, some "Page.goto: net::ERR_NAME_NOT_RESOLVED",
    Except.ok "s0",
    fun _ => Except.ok ⟨[ApplyToJob.CBlock.text "done"]⟩,
    fun _ _ => none, fun n => "s" ++ toString n⟩

/-- An action input whose `action` is an unrecognized variant. -/
def frobInput : ApplyToJob.ActionInput :=
  ⟨some "frobnicate", none, none, none, none, none, none, none, none⟩

/-- An action input requesting a screenshot. -/
def shotInput : ApplyToJob.ActionInput :=
  ⟨some "screenshot", none, none, none, none, none, none, none, none⟩

/-- A sub-agent oracle whose first response requests one unknown action, and
on which every Playwright call of iteration 0, action 0 raises. -/
def stepOracle : ApplyToJob.SubOracle :=
  ⟨none, none, true, none, Except.ok "s0",
    fun i =>
      if i == 0 then Except.ok ⟨[ApplyToJob.CBlock.toolUse ⟨"tu1", frobInput⟩]⟩
      else Except.ok ⟨[ApplyToJob.CBlock.text "done"]⟩,
    fun i j => if i == 0 && j == 0 then some "Target closed" else none,
    fun n => "s" ++ toString n⟩

/-- The loop state at entry of the first iteration of a run with initial
screenshot `"s0"` (as `_run_computer_use_loop` builds it). -/
def st0 : ApplyToJob.LoopSt :=
  ⟨0, [ApplyToJob.ITurn.user [ApplyToJob.IBlock.image "s0",
    ApplyToJob.IBlock.text "Apply to this job: https://example.com/jobs/1"]],
    (0, 0), 1, 0, "Job application process did not complete."⟩

/-- A bridge oracle: `asyncio.get_event_loop()` raises `RuntimeError` (no
current event loop on this thread) and the `asyncio.run` retry inside the
`except RuntimeError` handler raises a non-`RuntimeError` exception. -/
def bridgeFailOracle : ApplyToJob.BridgeOracle :=
  ⟨Except.error ⟨true, "There is no current event loop in thread ThreadPoolExecutor-0_0."⟩,
    Except.ok "unused", Except.ok "unused",
    Except.error ⟨false, "Connection error."⟩⟩

/-- Decoded bytes that begin with the 4-byte signature `%PDF` but not with
the 5-byte header `%PDF-` the source checks. -/
def pdfXBytes : List Nat := [37, 80, 68, 70, 88]

/-!  Helper lemmas.  -/

theorem str_append_assoc (a b c : String) : a ++ b ++ c = a ++ (b ++ c) := by
  apply String.ext
  simp [String.data_append]

theorem str_append_empty (a : String) : a ++ "" = a := by
  apply String.ext
  simp [String.data_append]

theorem execTools_ids {α : Type} (tools : Tools.Registry α)
    (la : String → Option ClaudeAgent.FileAttachment) :
    ∀ (tus : List (String × String × α)) (fa : Option ClaudeAgent.FileAttachment),
      ((ClaudeAgent.execTools tools la tus fa).1.map fun r => r.tool_use_id) =
        tus.map fun t => t.1 := by
  intro tus
  induction tus with
  | nil => intro fa; rfl
  | cons hd tl ih =>
    intro fa
    obtain ⟨id, name, input⟩ := hd
    simp [ClaudeAgent.execTools, ih]

theorem processActions_ids (o : ApplyToJob.SubOracle) (iter : Nat) :
    ∀ (tus : List ApplyToJob.ToolUse) (j : Nat) (mouse : Int × Int) (shots : Nat),
      ((ApplyToJob.processActions o iter tus j mouse shots).1.map fun r => r.tool_use_id) =
        tus.map fun t => t.id := by
  intro tus
  induction tus with
  | nil => intros; rfl
  | cons hd tl ih =>
    intro j mouse shots
    simp [ApplyToJob.processActions, ih]

theorem processActions_length (o : ApplyToJob.SubOracle) (iter : Nat) :
    ∀ (tus : List ApplyToJob.ToolUse) (j : Nat) (mouse : Int × Int) (shots : Nat),
      (ApplyToJob.processActions o iter tus j mouse shots).1.length = tus.length := by
  intro tus
  induction tus with
  | nil => intros; rfl
  | cons hd tl ih =>
    intro j mouse shots
    simp [ApplyToJob.processActions, ih]

theorem run_agent_loop_step {α : Type}
    (model : List (ClaudeAgent.Turn α) → ClaudeAgent.Response α)
    (tools : Tools.Registry α) (la : String → Option ClaudeAgent.FileAttachment)
    (fuel : Nat) (msgs : List (ClaudeAgent.Turn α))
    (fa : Option ClaudeAgent.FileAttachment) (tp : List String) (calls : Nat)
    (h1 : ((model msgs).stop_reason == "end_turn") = false)
    (h2 : (ClaudeAgent.toolUsesOf (model msgs).content).isEmpty = false) :
    ClaudeAgent.run_agent_loop model tools la (fuel + 1) msgs fa tp calls =
      ClaudeAgent.run_agent_loop model tools la fuel
        ((msgs ++ [ClaudeAgent.Turn.assistant (model msgs).content]) ++
          [ClaudeAgent.Turn.toolResults
            (ClaudeAgent.execTools tools la
              (ClaudeAgent.toolUsesOf (model msgs).content) fa).1])
        (ClaudeAgent.execTools tools la
          (ClaudeAgent.toolUsesOf (model msgs).content) fa).2
        (ClaudeAgent.textsOf (model msgs).content) (calls + 1) := by
  simp [ClaudeAgent.run_agent_loop, h1, h2]

theorem cuLoop_step (o : ApplyToJob.SubOracle) (fuel : Nat)
    (st : ApplyToJob.LoopSt) (resp : ApplyToJob.CResponse)
    (h1 : o.model st.iter = Except.ok resp)
    (h2 : (ApplyToJob.iToolUsesOf resp.content).isEmpty = false) :
    ApplyToJob.cuLoop o (fuel + 1) st =
      ApplyToJob.cuLoop o fuel
        ⟨st.iter + 1,
          (st.messages ++ [ApplyToJob.ITurn.assistant resp.content]) ++
            [ApplyToJob.ITurn.results
              (ApplyToJob.processActions o st.iter
                (ApplyToJob.iToolUsesOf resp.content) 0 st.mouse st.shots).1],
          (ApplyToJob.processActions o st.iter
            (ApplyToJob.iToolUsesOf resp.content) 0 st.mouse st.shots).2.1,
          (ApplyToJob.processActions o st.iter
            (ApplyToJob.iToolUsesOf resp.content) 0 st.mouse st.shots).2.2,
          st.calls + 1, st.summary⟩ := by
  simp [ApplyToJob.cuLoop, h1, h2]

theorem run_agent_loop_calls_le {α : Type}
    (model : List (ClaudeAgent.Turn α) → ClaudeAgent.Response α)
    (tools : Tools.Registry α) (la : String → Option ClaudeAgent.FileAttachment) :
    ∀ (fuel : Nat) (msgs : List (ClaudeAgent.Turn α))
      (fa : Option ClaudeAgent.FileAttachment) (tp : List String) (calls : Nat),
      (ClaudeAgent.run_agent_loop model tools la fuel msgs fa tp calls).calls ≤
        calls + fuel := by
  intro fuel
  induction fuel with
  | zero => intros; simp [ClaudeAgent.run_agent_loop]
  | succ n ih =>
    intro msgs fa tp calls
    simp only [ClaudeAgent.run_agent_loop]
    split
    · simp
    · exact le_trans (ih _ _ _ _) (by omega)

theorem run_agent_loop_always_tools {α : Type}
    (model : List (ClaudeAgent.Turn α) → ClaudeAgent.Response α)
    (tools : Tools.Registry α) (la : String → Option ClaudeAgent.FileAttachment)
    (H : ∀ msgs, ((model msgs).stop_reason == "end_turn") = false ∧
      (ClaudeAgent.toolUsesOf (model msgs).content).isEmpty = false) :
    ∀ (fuel : Nat) (msgs : List (ClaudeAgent.Turn α))
      (fa : Option ClaudeAgent.FileAttachment) (tp : List String) (calls : Nat),
      (ClaudeAgent.run_agent_loop model tools la fuel msgs fa tp calls).calls =
        calls + fuel ∧
      (ClaudeAgent.run_agent_loop model tools la fuel msgs fa tp calls).text =
        (if !(ClaudeAgent.run_agent_loop model tools la fuel msgs fa tp calls).lastTexts.isEmpty
          then String.intercalate "\n"
            (ClaudeAgent.run_agent_loop model tools la fuel msgs fa tp calls).lastTexts
          else "I used too many tool calls. Please try a simpler question.") := by
  intro fuel
  induction fuel with
  | zero => intros; exact ⟨rfl, rfl⟩
  | succ n ih =>
    intro msgs fa tp calls
    obtain ⟨h1, h2⟩ := H msgs
    rw [run_agent_loop_step model tools la n msgs fa tp calls h1 h2]
    refine ⟨?_, (ih _ _ _ _).2⟩
    rw [(ih _ _ _ _).1]
    omega

/-!  Claim theorems.  -/

/--
C2: the tool dispatcher `run_tool(name, input)` is total (the Lean model is a
total function; the source catches every `Exception`): for a name absent from
the registry the result is a string containing the indicator `Unknown tool`,
and for a registered callable that raises, the result is a string containing
the raised exception's message.
-/
theorem c2_run_tool_total_and_tagged {α : Type} (tools : Tools.Registry α)
    (name : String) (input : α) :
    (List.lookup name tools = none →
      strContains (Tools.run_tool tools name input) "Unknown tool") ∧
    (∀ (f : α → Except String String) (e : String),
      List.lookup name tools = some f → f input = Except.error e →
      strContains (Tools.run_tool tools name input) e) := by
  constructor
  · intro h
    refine ⟨"Error: ", " '" ++ name ++ "'", ?_⟩
    simp only [Tools.run_tool, h]
    rw [show ("Error: " ++ "Unknown tool" : String) = "Error: Unknown tool" from rfl]
    rw [← str_append_assoc, ← str_append_assoc]
    rw [show ("Error: Unknown tool" ++ " '" : String) = "Error: Unknown tool '" from rfl]
  · intro f e hf he
    refine ⟨"Error running " ++ name ++ ": ", "", ?_⟩
    simp only [Tools.run_tool, hf, he]
    rw [str_append_empty]

/-- C2 witness: a lookup miss and a raising callable, on a concrete registry. -/
theorem c2_witness :
    strContains (Tools.run_tool regNat "no_such_tool" 0) "Unknown tool" ∧
    strContains (Tools.run_tool regNat "web_search" 0) "boom" := by
  constructor
  · exact (c2_run_tool_total_and_tagged regNat "no_such_tool" 0).1 rfl
  · exact (c2_run_tool_total_and_tagged regNat "web_search" 0).2
      (fun _ => Except.error "boom") "boom" rfl rfl

/--
C7: if loading the target URL raises (within its bounded timeout), the
sub-agent run is terminal: `_run_computer_use_loop` returns the
navigation-failure summary, performs exactly one `browser.close()`, takes no
screenshot, makes no reasoning-model call, and builds no conversation — it
never enters the Observing/Acting cycle.
-/
theorem c7_nav_failure_is_terminal (o : ApplyToJob.SubOracle)
    (url path e : String) (h : o.nav = some e) :
    ApplyToJob._run_computer_use_loop o url path =
      ⟨Except.ok ("Failed to load job URL: " ++ e), ⟨1, 0, 0, []⟩⟩ := by
  simp [ApplyToJob._run_computer_use_loop, h]

/-- C7 witness: a concrete unreachable-URL run. -/
theorem c7_witness :
    ApplyToJob._run_computer_use_loop navFailOracle
        "https://unreachable.example/job" "/app/data/resume.pdf" =
      ⟨Except.ok ("Failed to load job URL: " ++ "Page.goto: net::ERR_NAME_NOT_RESOLVED"),
        ⟨1, 0, 0, []⟩⟩ :=
  c7_nav_failure_is_terminal navFailOracle "https://unreachable.example/job"
    "/app/data/resume.pdf" "Page.goto: net::ERR_NAME_NOT_RESOLVED" rfl

/--
C1 (claim refuted — code bug): on the execution path where navigation
succeeds and the first reasoning-model call raises, the exception propagates
out of `_run_computer_use_loop` with zero `browser.close()` calls — the
release call count is 0, not 1 (there is no `try/finally` around the loop).
For contrast, on a benign run the release call count is exactly 1.
-/
theorem c1_uncaught_exception_skips_release :
    (ApplyToJob._run_computer_use_loop apiFailOracle
        "https://example.com/jobs/1" "/app/data/resume.pdf").stats.closes = 0 ∧
    (ApplyToJob._run_computer_use_loop apiFailOracle
        "https://example.com/jobs/1" "/app/data/resume.pdf").result =
      Except.error "anthropic.APIConnectionError: Connection error." ∧
    (ApplyToJob._run_computer_use_loop okOracle
        "https://example.com/jobs/1" "/app/data/resume.pdf").stats.closes = 1 :=
  ⟨rfl, rfl, rfl⟩

/--
C9 (claim refuted — code bug): when `asyncio.get_event_loop()` raises
`RuntimeError` and the `asyncio.run` retry inside the `except RuntimeError`
handler itself raises, the exception propagates to the caller of
`apply_to_job` — the result is not a string (the sibling `except Exception`
clause does not cover exceptions raised inside a handler).
-/
theorem c9_fallback_exception_propagates :
    ApplyToJob.apply_to_job bridgeFailOracle =
      Except.error ⟨false, "Connection error."⟩ ∧
    ∀ s, ApplyToJob.apply_to_job bridgeFailOracle ≠ Except.ok s := by
  constructor
  · rfl
  · intro s h
    simp [ApplyToJob.apply_to_job, bridgeFailOracle] at h

/--
C8 counterexample: the decoded bytes `pdfXBytes` begin with the literal
4-byte PDF signature `%PDF`, yet `update_resume` rejects them with the
invalid-PDF error string and writes nothing — the source requires the 5-byte
header `%PDF-`, so beginning with the 4-byte signature does not suffice for
acceptance, contrary to the claim.
-/
theorem c8_counterexample :
    List.take 4 pdfXBytes = UpdateResume.pdfSig4 ∧
    UpdateResume.update_resume (Except.ok pdfXBytes) none UpdateResume.fs0 =
      ("Error: The attachment does not appear to be a valid PDF file.",
        UpdateResume.fs0) := by
  constructor
  · rfl
  · rfl

/--
C8 (amended): `update_resume` accepts the decoded bytes exactly when they
begin with the literal 5-byte header `%PDF-`; accepted bytes are persisted to
`/app/data/resume.pdf` (directory created, prior content fully replaced) and
the success string is returned; otherwise the invalid-PDF error string is
returned and the filesystem is untouched.
-/
theorem c8_five_byte_header_gate (b : List Nat) (pt : Option (Int × String))
    (fs : UpdateResume.FS) :
    (b.take 5 = UpdateResume.pdfMagic →
      UpdateResume.update_resume (Except.ok b) pt fs =
        (UpdateResume.successMsg b.length pt, ⟨some b, true⟩)) ∧
    (¬(b.take 5 = UpdateResume.pdfMagic) →
      UpdateResume.update_resume (Except.ok b) pt fs =
        ("Error: The attachment does not appear to be a valid PDF file.", fs)) ∧
    (∃ rest, UpdateResume.successMsg b.length pt =
      "Resume updated successfully (" ++ rest) := by
  refine ⟨?_, ?_, ?_⟩
  · intro h
    simp [UpdateResume.update_resume, h]
  · intro h
    simp [UpdateResume.update_resume, beq_iff_eq, h]
  · exact ⟨_, rfl⟩

/-- C8 witness: a concrete accepted PDF payload is persisted verbatim. -/
theorem c8_witness :
    UpdateResume.update_resume (Except.ok [37, 80, 68, 70, 45, 1]) none
        UpdateResume.fs0 =
      (UpdateResume.successMsg 6 none, ⟨some [37, 80, 68, 70, 45, 1], true⟩) :=
  (c8_five_byte_header_gate [37, 80, 68, 70, 45, 1] none UpdateResume.fs0).1 rfl

/--
C10: `update_resume` is atomic on rejection: when the base64 decode raises,
or the decoded bytes fail the header check, an error string is returned and
the filesystem (the stored resume and the `/app/data` directory state) is
returned exactly as it was — both rejections happen before `os.makedirs` and
the write.
-/
theorem c10_rejection_is_atomic (pt : Option (Int × String))
    (fs : UpdateResume.FS) :
    (∀ e, UpdateResume.update_resume (Except.error e) pt fs =
      ("Error: Invalid base64 data — " ++ e, fs)) ∧
    (∀ b, ¬(List.take 5 b = UpdateResume.pdfMagic) →
      UpdateResume.update_resume (Except.ok b) pt fs =
        ("Error: The attachment does not appear to be a valid PDF file.", fs)) := by
  constructor
  · intro e; rfl
  · intro b h
    simp [UpdateResume.update_resume, beq_iff_eq, h]

/-- C10 witness: a failed decode and a non-PDF payload both leave the prior
filesystem byte-for-byte unchanged. -/
theorem c10_witness :
    UpdateResume.update_resume (Except.error "Invalid base64-encoded string") none
        UpdateResume.fs0 =
      ("Error: Invalid base64 data — " ++ "Invalid base64-encoded string",
        UpdateResume.fs0) ∧
    UpdateResume.update_resume (Except.ok [1, 2, 3]) none UpdateResume.fs0 =
      ("Error: The attachment does not appear to be a valid PDF file.",
        UpdateResume.fs0) := by
  constructor
  · exact (c10_rejection_is_atomic none UpdateResume.fs0).1 "Invalid base64-encoded string"
  · exact (c10_rejection_is_atomic none UpdateResume.fs0).2 [1, 2, 3] (by decide)

/--
C3: in both loops, every tool-invocation request of a continuing round is
answered by exactly one tool-result carrying the same call identifier, in
emission order, and all results of the round are appended as a single new
user turn before the next reasoning-model call (the recursive call of the
loop): (a) the orchestrator's per-round execution pass maps invocation ids
to result ids one-to-one in order; (b) a continuing orchestrator round
appends exactly the assistant turn and one tool-results turn and recurses;
(c) the sub-agent's per-round action pass maps ids one-to-one in order;
(d) a continuing sub-agent round appends exactly the assistant turn and one
results turn and recurses.
-/
theorem c3_one_result_per_invocation {α : Type} (tools : Tools.Registry α)
    (la : String → Option ClaudeAgent.FileAttachment) :
    (∀ (tus : List (String × String × α)) (fa : Option ClaudeAgent.FileAttachment),
      ((ClaudeAgent.execTools tools la tus fa).1.map fun r => r.tool_use_id) =
        tus.map fun t => t.1) ∧
    (∀ (model : List (ClaudeAgent.Turn α) → ClaudeAgent.Response α)
      (fuel : Nat) (msgs : List (ClaudeAgent.Turn α))
      (fa : Option ClaudeAgent.FileAttachment) (tp : List String) (calls : Nat),
      ((model msgs).stop_reason == "end_turn") = false →
      (ClaudeAgent.toolUsesOf (model msgs).content).isEmpty = false →
      ClaudeAgent.run_agent_loop model tools la (fuel + 1) msgs fa tp calls =
        ClaudeAgent.run_agent_loop model tools la fuel
          ((msgs ++ [ClaudeAgent.Turn.assistant (model msgs).content]) ++
            [ClaudeAgent.Turn.toolResults
              (ClaudeAgent.execTools tools la
                (ClaudeAgent.toolUsesOf (model msgs).content) fa).1])
          (ClaudeAgent.execTools tools la
            (ClaudeAgent.toolUsesOf (model msgs).content) fa).2
          (ClaudeAgent.textsOf (model msgs).content) (calls + 1)) ∧
    (∀ (o : ApplyToJob.SubOracle) (iter : Nat) (tus : List ApplyToJob.ToolUse)
      (j : Nat) (mouse : Int × Int) (shots : Nat),
      ((ApplyToJob.processActions o iter tus j mouse shots).1.map
        fun r => r.tool_use_id) = tus.map fun t => t.id) ∧
    (∀ (o : ApplyToJob.SubOracle) (fuel : Nat) (st : ApplyToJob.LoopSt)
      (resp : ApplyToJob.CResponse),
      o.model st.iter = Except.ok resp →
      (ApplyToJob.iToolUsesOf resp.content).isEmpty = false →
      ApplyToJob.cuLoop o (fuel + 1) st =
        ApplyToJob.cuLoop o fuel
          ⟨st.iter + 1,
            (st.messages ++ [ApplyToJob.ITurn.assistant resp.content]) ++
              [ApplyToJob.ITurn.results
                (ApplyToJob.processActions o st.iter
                  (ApplyToJob.iToolUsesOf resp.content) 0 st.mouse st.shots).1],
            (ApplyToJob.processActions o st.iter
              (ApplyToJob.iToolUsesOf resp.content) 0 st.mouse st.shots).2.1,
            (ApplyToJob.processActions o st.iter
              (ApplyToJob.iToolUsesOf resp.content) 0 st.mouse st.shots).2.2,
            st.calls + 1, st.summary⟩) := by
  refine ⟨execTools_ids tools la, ?_, ?_, ?_⟩
  · intro model fuel msgs fa tp calls h1 h2
    exact run_agent_loop_step model tools la fuel msgs fa tp calls h1 h2
  · intro o iter tus j mouse shots
    exact processActions_ids o iter tus j mouse shots
  · intro o fuel st resp h1 h2
    exact cuLoop_step o fuel st resp h1 h2

/-- C3 witness: both pairing passes and both continuing-round unfoldings at
concrete inputs. -/
theorem c3_witness :
    ((ClaudeAgent.execTools regUnit noLatex [("toolu_9", "web_search", ())] none).1.map
      fun r => r.tool_use_id) =
      ([("toolu_9", "web_search", ())].map fun t => t.1) ∧
    ClaudeAgent.run_agent_loop toolRoundModel regUnit noLatex 1
        [ClaudeAgent.Turn.user "go"] none [] 0 =
      ClaudeAgent.run_agent_loop toolRoundModel regUnit noLatex 0
        (([ClaudeAgent.Turn.user "go"] ++
          [ClaudeAgent.Turn.assistant
            (toolRoundModel [ClaudeAgent.Turn.user "go"]).content]) ++
          [ClaudeAgent.Turn.toolResults
            (ClaudeAgent.execTools regUnit noLatex
              (ClaudeAgent.toolUsesOf
                (toolRoundModel [ClaudeAgent.Turn.user "go"]).content) none).1])
        (ClaudeAgent.execTools regUnit noLatex
          (ClaudeAgent.toolUsesOf
            (toolRoundModel [ClaudeAgent.Turn.user "go"]).content) none).2
        (ClaudeAgent.textsOf (toolRoundModel [ClaudeAgent.Turn.user "go"]).content)
        (0 + 1) ∧
    ((ApplyToJob.processActions okOracle 0 [⟨"tu1", ApplyToJob.emptyInput⟩] 0
        (0, 0) 1).1.map fun r => r.tool_use_id) =
      (([⟨"tu1", ApplyToJob.emptyInput⟩] : List ApplyToJob.ToolUse).map
        fun t => t.id) ∧
    ApplyToJob.cuLoop stepOracle 1 st0 =
      ApplyToJob.cuLoop stepOracle 0
        ⟨st0.iter + 1,
          (st0.messages ++
            [ApplyToJob.ITurn.assistant
              [ApplyToJob.CBlock.toolUse ⟨"tu1", frobInput⟩]]) ++
            [ApplyToJob.ITurn.results
              (ApplyToJob.processActions stepOracle st0.iter
                (ApplyToJob.iToolUsesOf
                  [ApplyToJob.CBlock.toolUse ⟨"tu1", frobInput⟩]) 0
                st0.mouse st0.shots).1],
          (ApplyToJob.processActions stepOracle st0.iter
            (ApplyToJob.iToolUsesOf
              [ApplyToJob.CBlock.toolUse ⟨"tu1", frobInput⟩]) 0
            st0.mouse st0.shots).2.1,
          (ApplyToJob.processActions stepOracle st0.iter
            (ApplyToJob.iToolUsesOf
              [ApplyToJob.CBlock.toolUse ⟨"tu1", frobInput⟩]) 0
            st0.mouse st0.shots).2.2,
          st0.calls + 1, st0.summary⟩ := by
  refine ⟨?_, ?_, ?_, ?_⟩
  · exact (c3_one_result_per_invocation regUnit noLatex).1
      [("toolu_9", "web_search", ())] none
  · exact (c3_one_result_per_invocation regUnit noLatex).2.1 toolRoundModel 0
      [ClaudeAgent.Turn.user "go"] none [] 0 rfl rfl
  · exact (c3_one_result_per_invocation regUnit noLatex).2.2.1 okOracle 0
      [⟨"tu1", ApplyToJob.emptyInput⟩] 0 (0, 0) 1
  · exact (c3_one_result_per_invocation regUnit noLatex).2.2.2 stepOracle 0 st0
      ⟨[ApplyToJob.CBlock.toolUse ⟨"tu1", frobInput⟩]⟩ rfl rfl

/--
C4 counterexample: a response with zero tool-use blocks and the two text
blocks `"a"`, `"b"` makes the orchestrator return `"a\nb"` — the blocks
joined with a newline separator — which differs from their concatenation
`"ab"`, refuting "the returned text equals the concatenation of that round's
text blocks" as stated.
-/
theorem c4_counterexample :
    ClaudeAgent.toolUsesOf (twoTextModel [ClaudeAgent.Turn.user "hi"]).content = [] ∧
    ClaudeAgent.textsOf (twoTextModel [ClaudeAgent.Turn.user "hi"]).content = ["a", "b"] ∧
    (ClaudeAgent.run_agent twoTextModel regUnit noLatex "hi" []).text = "a\nb" ∧
    (ClaudeAgent.run_agent twoTextModel regUnit noLatex "hi" []).text ≠
      String.join ["a", "b"] := by
  refine ⟨rfl, rfl, rfl, ?_⟩
  decide

/--
C4 (amended): for every round whose model response contains zero tool-use
blocks the loop terminates on that round; the returned text is the
newline-joined text blocks of that round in order, or the fixed fallback
message when there are none; the conversation is returned unchanged — no
assistant or tool-result turn is appended.
-/
theorem c4_zero_tool_blocks_terminates {α : Type}
    (model : List (ClaudeAgent.Turn α) → ClaudeAgent.Response α)
    (tools : Tools.Registry α) (la : String → Option ClaudeAgent.FileAttachment)
    (fuel : Nat) (msgs : List (ClaudeAgent.Turn α))
    (fa : Option ClaudeAgent.FileAttachment) (tp : List String) (calls : Nat)
    (h : ClaudeAgent.toolUsesOf (model msgs).content = []) :
    ClaudeAgent.run_agent_loop model tools la (fuel + 1) msgs fa tp calls =
      ⟨if !(ClaudeAgent.textsOf (model msgs).content).isEmpty
          then String.intercalate "\n" (ClaudeAgent.textsOf (model msgs).content)
          else "I couldn't generate a response.",
        fa, msgs, calls + 1, ClaudeAgent.textsOf (model msgs).content⟩ := by
  simp [ClaudeAgent.run_agent_loop, h]

/-- C4 witness: a single-text-block response terminates the loop on round
one with that text and an unchanged conversation. -/
theorem c4_witness :
    ClaudeAgent.run_agent_loop oneTextModel regUnit noLatex 10
        [ClaudeAgent.Turn.user "hi"] none [] 0 =
      ⟨"hello", none, [ClaudeAgent.Turn.user "hi"], 1, ["hello"]⟩ := by
  have h := c4_zero_tool_blocks_terminates oneTextModel regUnit noLatex 9
    [ClaudeAgent.Turn.user "hi"] none [] 0 rfl
  rw [h]
  rfl

/--
C5 counterexample: with a model that requests a tool on every round, the
budget is exhausted, yet because the final round had a text block the
returned text is exactly that round's text `"t"` with no too-complex
message attached — the fixed message
`"I used too many tool calls. Please try a simpler question."` (the
program's only too-complex indicator) does not occur in it, refuting
"returns the best-effort accumulated text with a message indicating the
task was too complex" as stated.
-/
theorem c5_counterexample :
    (ClaudeAgent.run_agent toolRoundModel regUnit noLatex "go" []).text = "t" ∧
    ¬ strContains (ClaudeAgent.run_agent toolRoundModel regUnit noLatex "go" []).text
        "I used too many tool calls. Please try a simpler question." := by
  have htext : (ClaudeAgent.run_agent toolRoundModel regUnit noLatex "go" []).text = "t" := by
    rfl
  refine ⟨htext, ?_⟩
  rw [htext]
  rintro ⟨pre, post, h⟩
  have hl := congrArg String.length h
  rw [String.length_append, String.length_append] at hl
  have hone : ("t" : String).length = 1 := rfl
  have hbig : 2 ≤ ("I used too many tool calls. Please try a simpler question." : String).length := by
    decide
  omega

/--
C5 (amended): the orchestrator makes at most `MAX_TOOL_ROUNDS = 10`
reasoning-model calls for every model oracle; under a model that requests a
tool on every round it makes exactly 10 and then returns, without raising,
the final round's newline-joined text blocks when there are any and the
fixed too-many-tool-calls message otherwise.
-/
theorem c5_round_budget {α : Type}
    (model : List (ClaudeAgent.Turn α) → ClaudeAgent.Response α)
    (tools : Tools.Registry α) (la : String → Option ClaudeAgent.FileAttachment)
    (user_message : String) (history : List (ClaudeAgent.Turn α)) :
    (ClaudeAgent.run_agent model tools la user_message history).calls ≤
      ClaudeAgent.MAX_TOOL_ROUNDS ∧
    ((∀ msgs, ((model msgs).stop_reason == "end_turn") = false ∧
        (ClaudeAgent.toolUsesOf (model msgs).content).isEmpty = false) →
      (ClaudeAgent.run_agent model tools la user_message history).calls =
        ClaudeAgent.MAX_TOOL_ROUNDS ∧
      (ClaudeAgent.run_agent model tools la user_message history).text =
        (if !(ClaudeAgent.run_agent model tools la user_message history).lastTexts.isEmpty
          then String.intercalate "\n"
            (ClaudeAgent.run_agent model tools la user_message history).lastTexts
          else "I used too many tool calls. Please try a simpler question.")) := by
  constructor
  · have h := run_agent_loop_calls_le model tools la ClaudeAgent.MAX_TOOL_ROUNDS
      (history ++ [ClaudeAgent.Turn.user user_message]) none [] 0
    simpa [ClaudeAgent.run_agent] using h
  · intro H
    have h := run_agent_loop_always_tools model tools la H ClaudeAgent.MAX_TOOL_ROUNDS
      (history ++ [ClaudeAgent.Turn.user user_message]) none [] 0
    constructor
    · simpa [ClaudeAgent.run_agent] using h.1
    · simpa [ClaudeAgent.run_agent] using h.2

/-- C5 witness: the always-requesting model makes exactly 10 model calls. -/
theorem c5_witness :
    (ClaudeAgent.run_agent toolRoundModel regUnit noLatex "go" []).calls =
      ClaudeAgent.MAX_TOOL_ROUNDS ∧
    (ClaudeAgent.run_agent toolRoundModel regUnit noLatex "go" []).calls ≤
      ClaudeAgent.MAX_TOOL_ROUNDS := by
  have h := c5_round_budget toolRoundModel regUnit noLatex "go" []
  exact ⟨(h.2 fun msgs => ⟨rfl, rfl⟩).1, h.1⟩

/--
C6: in the sub-agent's Acting state every action invocation produces exactly
one tool-result and never aborts the run: (a) a round's action pass yields
one result per invocation; (b) an unrecognized action variant yields the
plain diagnostic text observation, not an exception; (c) whenever an
action's body raises, the exception is caught per action and converted to
the text observation; (d) a round with at least one action always continues
to the next iteration (iteration counter incremented by one exactly as for
known actions), never terminating the loop early.
-/
theorem c6_actions_never_abort :
    (∀ (o : ApplyToJob.SubOracle) (iter : Nat) (tus : List ApplyToJob.ToolUse)
      (j : Nat) (mouse : Int × Int) (shots : Nat),
      (ApplyToJob.processActions o iter tus j mouse shots).1.length = tus.length) ∧
    (∀ (o : ApplyToJob.SubOracle) (iter j : Nat) (mouse : Int × Int) (shots : Nat)
      (inp : ApplyToJob.ActionInput),
      ApplyToJob.isKnownAction inp.action = false →
      ApplyToJob.doAction o iter j mouse shots inp =
        ([ApplyToJob.IBlock.text ("Unknown action: " ++ ApplyToJob.pyShow inp.action)],
          mouse, shots)) ∧
    (∀ (o : ApplyToJob.SubOracle) (iter j : Nat) (mouse : Int × Int) (shots : Nat)
      (inp : ApplyToJob.ActionInput) (e : String),
      ApplyToJob.actionBody o iter j mouse shots inp = Except.error e →
      ApplyToJob.doAction o iter j mouse shots inp =
        ([ApplyToJob.IBlock.text
          ("Error executing " ++ ApplyToJob.pyShow inp.action ++ ": " ++ e)],
          mouse, shots)) ∧
    (∀ (o : ApplyToJob.SubOracle) (fuel : Nat) (st : ApplyToJob.LoopSt)
      (resp : ApplyToJob.CResponse),
      o.model st.iter = Except.ok resp →
      (ApplyToJob.iToolUsesOf resp.content).isEmpty = false →
      ∃ st2, ApplyToJob.cuLoop o (fuel + 1) st = ApplyToJob.cuLoop o fuel st2 ∧
        st2.iter = st.iter + 1 ∧ st2.calls = st.calls + 1) := by
  refine ⟨processActions_length, ?_, ?_, ?_⟩
  · intro o iter j mouse shots inp h
    unfold ApplyToJob.isKnownAction at h
    rw [Bool.or_eq_false_iff, Bool.or_eq_false_iff, Bool.or_eq_false_iff,
      Bool.or_eq_false_iff, Bool.or_eq_false_iff, Bool.or_eq_false_iff,
      Bool.or_eq_false_iff, Bool.or_eq_false_iff, Bool.or_eq_false_iff,
      Bool.or_eq_false_iff, Bool.or_eq_false_iff, Bool.or_eq_false_iff,
      Bool.or_eq_false_iff] at h
    obtain ⟨⟨⟨⟨⟨⟨⟨⟨⟨⟨⟨⟨⟨h1, h2⟩, h3⟩, h4⟩, h5⟩, h6⟩, h7⟩, h8⟩, h9⟩, h10⟩,
      h11⟩, h12⟩, h13⟩, h14⟩ := h
    simp [ApplyToJob.doAction, ApplyToJob.actionBody,
      h1, h2, h3, h4, h5, h6, h7, h8, h9, h10, h11, h12, h13, h14]
  · intro o iter j mouse shots inp e h
    simp [ApplyToJob.doAction, h]
  · intro o fuel st resp h1 h2
    exact ⟨_, cuLoop_step o fuel st resp h1 h2, rfl, rfl⟩

/-- C6 witness: a two-action round (one unknown action, one screenshot), an
unknown action's diagnostic, a raising screenshot's error observation, and a
continuing round, at concrete inputs. -/
theorem c6_witness :
    (ApplyToJob.processActions okOracle 0
        [⟨"tu1", frobInput⟩, ⟨"tu2", shotInput⟩] 0 (0, 0) 1).1.length =
      ([⟨"tu1", frobInput⟩, ⟨"tu2", shotInput⟩] : List ApplyToJob.ToolUse).length ∧
    ApplyToJob.doAction okOracle 0 0 (0, 0) 1 frobInput =
      ([ApplyToJob.IBlock.text ("Unknown action: " ++ ApplyToJob.pyShow frobInput.action)],
        (0, 0), 1) ∧
    ApplyToJob.doAction stepOracle 0 0 (0, 0) 1 shotInput =
      ([ApplyToJob.IBlock.text
        ("Error executing " ++ ApplyToJob.pyShow shotInput.action ++ ": " ++ "Target closed")],
        (0, 0), 1) ∧
    (∃ st2, ApplyToJob.cuLoop stepOracle 1 st0 = ApplyToJob.cuLoop stepOracle 0 st2 ∧
      st2.iter = st0.iter + 1 ∧ st2.calls = st0.calls + 1) := by
  refine ⟨?_, ?_, ?_, ?_⟩
  · exact c6_actions_never_abort.1 okOracle 0
      [⟨"tu1", frobInput⟩, ⟨"tu2", shotInput⟩] 0 (0, 0) 1
  · exact c6_actions_never_abort.2.1 okOracle 0 0 (0, 0) 1 frobInput rfl
  · exact c6_actions_never_abort.2.2.1 stepOracle 0 0 (0, 0) 1 shotInput "Target closed" rfl
  · exact c6_actions_never_abort.2.2.2 stepOracle 0 st0
      ⟨[ApplyToJob.CBlock.toolUse ⟨"tu1", frobInput⟩]⟩ rfl rfl
